import Mathlib

/-!
Verification of the Tag-Explorer data-refresh and dynamic-tagging pipeline.

Each definition below is a shallow embedding of one function of the
repository.  JavaScript numbers are modelled as rationals (ℚ); nullable
columns and optional JSON fields as `Option`; the relational tables as
lists of rows.  JS truthiness on a numeric value x is `x ≠ 0` (and
`Option.isSome`), truthiness on a string is `s ≠ ""`.
-/

namespace FullUpdate

/-- A row of the `tags` table: serial id, unique name, family/type label.
Source: /api/full-update.js (tags are looked up by name and created with
`INSERT INTO tags (name, type) ... RETURNING id`). -/
structure TagRow where
  id : Nat
  name : String
  ttype : String
deriving DecidableEq

/-- The slice of the store touched by the tag applier: the `tags` table,
the `stock_tags` association table (pairs of stock ticker and tag id),
and the next serial id the store would hand out. -/
structure TagDB where
  tags : List TagRow
  stockTags : List (String × Nat)
  nextId : Nat
deriving DecidableEq

/-- SELECT id FROM tags WHERE name = $1 (first matching row). -/
def findTag (db : TagDB) (tagName : String) : Option TagRow :=
  db.tags.find? (fun t => t.name == tagName)

/-- Embedding of `applyTag(tagName, tagType, tickers, client)` from
/api/full-update.js: if the ticker list is empty, return immediately;
otherwise find or create the tag row, delete every existing association
of that tag id, and bulk-insert the pairs (ticker, tagId). -/
def applyTag (tagName tagType : String) (tickers : List String) (db : TagDB) : TagDB :=
  if tickers.length = 0 then db
  else
    match findTag db tagName with
    | some t =>
        { db with
          stockTags := db.stockTags.filter (fun p => !(p.2 == t.id))
            ++ tickers.map (fun s => (s, t.id)) }
    | none =>
        { tags := db.tags ++ [⟨db.nextId, tagName, tagType⟩],
          stockTags := db.stockTags.filter (fun p => !(p.2 == db.nextId))
            ++ tickers.map (fun s => (s, db.nextId)),
          nextId := db.nextId + 1 }

/-- The tickers currently associated with the tag of the given name
(resolving the name through the `tags` table as the read endpoints do). -/
def tagAssociations (db : TagDB) (tagName : String) : List String :=
  match findTag db tagName with
  | some t => (db.stockTags.filter (fun p => p.2 == t.id)).map (fun p => p.1)
  | none => []

/-- A store holding one stale association for tag X, used to exhibit the
behaviour of `applyTag` on an empty ticker list. -/
def staleDb : TagDB :=
  { tags := [⟨0, "X", "dynamic"⟩], stockTags := [("AAPL", 0)], nextId := 1 }

end FullUpdate

namespace DataHealth

/-- One row of the `stocks` table as seen by pages/api/data-health.js.
`fresh` abstracts the timestamp comparison `last_updated >= NOW() - 24h`;
`dynamic_tags` is the JSON-array column tested against null and the
literal text of an empty array. -/
structure StockHealthRow where
  price : Option ℚ
  change_amount : Option ℚ
  change_percent : Option ℚ
  fresh : Bool
  dynamic_tags : Option String
deriving DecidableEq

/-- or(price.is.null, change_amount.is.null, change_percent.is.null). -/
def isIncomplete (r : StockHealthRow) : Bool :=
  r.price.isNone || r.change_amount.isNone || r.change_percent.isNone

/-- or(price.lte.0, change_percent.gt.50, change_percent.lt.-50); a SQL
comparison against NULL never matches, hence the Option matches. -/
def isAnomalous (r : StockHealthRow) : Bool :=
  (match r.price with
   | some p => decide (p ≤ 0)
   | none => false)
  || (match r.change_percent with
      | some c => decide (50 < c)
      | none => false)
  || (match r.change_percent with
      | some c => decide (c < -50)
      | none => false)

/-- not(dynamic_tags.is.null) and neq(dynamic_tags, text of empty array). -/
def isTagged (r : StockHealthRow) : Bool :=
  match r.dynamic_tags with
  | none => false
  | some s => !(s == "[]")

/-- The number of matching rows each head count query reports in its
count field.  Note that the handler of pages/api/data-health.js never
reads these values: it destructures the data field of every such query
— see `boundCount` and the reported definitions below.  The rate and
score definitions that follow apply the handler's arithmetic to these
true counts, i.e. they describe the computation the endpoint would
perform had it bound the count field. -/
def incompleteCount (stocks : List StockHealthRow) : Nat := stocks.countP isIncomplete

def freshCount (stocks : List StockHealthRow) : Nat := stocks.countP (fun r => r.fresh)

def taggedCount (stocks : List StockHealthRow) : Nat := stocks.countP isTagged

def anomalousCount (stocks : List StockHealthRow) : Nat := stocks.countP isAnomalous

/-- completenessRate = totalCount > 0 ? ((totalCount - incompleteCount) / totalCount) * 100 : 0,
over the true counts. -/
def completenessRate (stocks : List StockHealthRow) : ℚ :=
  if stocks.length = 0 then 0
  else (((stocks.length : ℚ) - (incompleteCount stocks : ℚ)) / (stocks.length : ℚ)) * 100

/-- freshnessRate = totalCount > 0 ? (freshCount / totalCount) * 100 : 0. -/
def freshnessRate (stocks : List StockHealthRow) : ℚ :=
  if stocks.length = 0 then 0
  else ((freshCount stocks : ℚ) / (stocks.length : ℚ)) * 100

/-- tagCoverageRate = totalCount > 0 ? (taggedCount / totalCount) * 100 : 0. -/
def tagCoverageRate (stocks : List StockHealthRow) : ℚ :=
  if stocks.length = 0 then 0
  else ((taggedCount stocks : ℚ) / (stocks.length : ℚ)) * 100

/-- dataQualityRate = totalCount > 0 ? ((totalCount - anomalousCount) / totalCount) * 100 : 0. -/
def dataQualityRate (stocks : List StockHealthRow) : ℚ :=
  if stocks.length = 0 then 0
  else (((stocks.length : ℚ) - (anomalousCount stocks : ℚ)) / (stocks.length : ℚ)) * 100

/-- Math.round of the weighted sum (JS Math.round is floor of x + 1/2 for
the non-negative values occurring here). -/
def overallHealthScore (stocks : List StockHealthRow) : ℤ :=
  Int.floor (completenessRate stocks * (0.3 : ℚ) + freshnessRate stocks * (0.3 : ℚ)
    + dataQualityRate stocks * (0.25 : ℚ) + tagCoverageRate stocks * (0.15 : ℚ) + 1/2)

/-- Status thresholds of pages/api/data-health.js step 8. -/
def healthStatus (stocks : List StockHealthRow) : String :=
  if 90 ≤ overallHealthScore stocks then ("excellent")
  else if 75 ≤ overallHealthScore stocks then ("good")
  else if 60 ≤ overallHealthScore stocks then ("fair")
  else ("poor")

/-- The recommendations pushed together with the status.  The message
texts are abbreviated; only their presence and count matter here. -/
def statusRecommendations (stocks : List StockHealthRow) : List String :=
  if 90 ≤ overallHealthScore stocks then []
  else if 75 ≤ overallHealthScore stocks then []
  else if 60 ≤ overallHealthScore stocks then
    [("Consider running batch update to improve data quality")]
  else [("Immediate batch update recommended"), ("Check data source connectivity")]

/-- Full recommendation list: status recommendations followed by the four
metric-specific ones, in source order. -/
def healthRecommendations (stocks : List StockHealthRow) : List String :=
  statusRecommendations stocks
  ++ (if completenessRate stocks < 95 then [("data completeness low")] else [])
  ++ (if freshnessRate stocks < 80 then [("data freshness low")] else [])
  ++ (if tagCoverageRate stocks < 90 then [("tag coverage low")] else [])
  ++ (if 0 < anomalousCount stocks then [("anomalous data present")] else [])

/-- Ten stocks, all complete, fresh and normal, three tagged: the
weighted sum is 89.5 and rounds to 90. -/
def scoreNinetyStocks : List StockHealthRow :=
  List.replicate 7 ⟨some 10, some 1, some 1, true, none⟩
  ++ List.replicate 3 ⟨some 10, some 1, some 1, true, some ("t")⟩

/-- Twenty stocks, all complete and fresh, four anomalous, twelve tagged:
score 30 + 30 + 20 + 9 = 89. -/
def scoreEightyNineStocks : List StockHealthRow :=
  List.replicate 4 ⟨some 10, some 1, some 60, true, some ("t")⟩
  ++ List.replicate 8 ⟨some 10, some 1, some 1, true, some ("t")⟩
  ++ List.replicate 8 ⟨some 10, some 1, some 1, true, none⟩

/-- Twenty stocks, all complete and fresh, all anomalous, none tagged:
score 30 + 30 + 0 + 0 = 60. -/
def scoreSixtyStocks : List StockHealthRow :=
  List.replicate 20 ⟨some 10, some 1, some 60, true, none⟩

/-- Twenty stocks, nineteen complete, all fresh, all anomalous, none
tagged: the weighted sum is 58.5 and rounds to 59. -/
def scoreFiftyNineStocks : List StockHealthRow :=
  (⟨none, some 1, some 60, true, none⟩ : StockHealthRow)
    :: List.replicate 19 ⟨some 10, some 1, some 60, true, none⟩

/-- Result shape of a supabase select issued with count exact and head
true: the server returns no rows, so the data field is null, and the
matching-row count arrives in the separate count field. -/
structure HeadCountResult where
  data : Option Nat
  count : Nat
deriving DecidableEq

/-- One head count query of pages/api/data-health.js against a table
whose matching-row count is n. -/
def headCountQuery (n : Nat) : HeadCountResult := { data := none, count := n }

/-- The handler's destructuring of such a result: it binds the data
field (const with data renamed) and coalesces the null with zero
(the JS pattern value-or-zero), never reading the count field. -/
def boundCount (r : HeadCountResult) : Nat := r.data.getD 0

/-- totalCount as the handler actually computes it. -/
def reportedTotalCount (stocks : List StockHealthRow) : Nat :=
  boundCount (headCountQuery stocks.length)

/-- incompleteCount as the handler actually computes it. -/
def reportedIncompleteCount (stocks : List StockHealthRow) : Nat :=
  boundCount (headCountQuery (incompleteCount stocks))

/-- freshCount as the handler actually computes it. -/
def reportedFreshCount (stocks : List StockHealthRow) : Nat :=
  boundCount (headCountQuery (freshCount stocks))

/-- taggedCount as the handler actually computes it. -/
def reportedTaggedCount (stocks : List StockHealthRow) : Nat :=
  boundCount (headCountQuery (taggedCount stocks))

/-- anomalousCount as the handler actually computes it. -/
def reportedAnomalousCount (stocks : List StockHealthRow) : Nat :=
  boundCount (headCountQuery (anomalousCount stocks))

/-- The completeness rate the endpoint actually reports. -/
def reportedCompletenessRate (stocks : List StockHealthRow) : ℚ :=
  if reportedTotalCount stocks = 0 then 0
  else (((reportedTotalCount stocks : ℚ) - (reportedIncompleteCount stocks : ℚ))
    / (reportedTotalCount stocks : ℚ)) * 100

/-- The freshness rate the endpoint actually reports. -/
def reportedFreshnessRate (stocks : List StockHealthRow) : ℚ :=
  if reportedTotalCount stocks = 0 then 0
  else ((reportedFreshCount stocks : ℚ) / (reportedTotalCount stocks : ℚ)) * 100

/-- The tag-coverage rate the endpoint actually reports. -/
def reportedTagCoverageRate (stocks : List StockHealthRow) : ℚ :=
  if reportedTotalCount stocks = 0 then 0
  else ((reportedTaggedCount stocks : ℚ) / (reportedTotalCount stocks : ℚ)) * 100

/-- The data-quality rate the endpoint actually reports. -/
def reportedDataQualityRate (stocks : List StockHealthRow) : ℚ :=
  if reportedTotalCount stocks = 0 then 0
  else (((reportedTotalCount stocks : ℚ) - (reportedAnomalousCount stocks : ℚ))
    / (reportedTotalCount stocks : ℚ)) * 100

/-- The overall health score the endpoint actually reports. -/
def reportedOverallHealthScore (stocks : List StockHealthRow) : ℤ :=
  Int.floor (reportedCompletenessRate stocks * (0.3 : ℚ)
    + reportedFreshnessRate stocks * (0.3 : ℚ)
    + reportedDataQualityRate stocks * (0.25 : ℚ)
    + reportedTagCoverageRate stocks * (0.15 : ℚ) + 1/2)

/-- The health status the endpoint actually reports. -/
def reportedHealthStatus (stocks : List StockHealthRow) : String :=
  if 90 ≤ reportedOverallHealthScore stocks then ("excellent")
  else if 75 ≤ reportedOverallHealthScore stocks then ("good")
  else if 60 ≤ reportedOverallHealthScore stocks then ("fair")
  else ("poor")

/-- The status recommendations the endpoint actually pushes. -/
def reportedStatusRecommendations (stocks : List StockHealthRow) : List String :=
  if 90 ≤ reportedOverallHealthScore stocks then []
  else if 75 ≤ reportedOverallHealthScore stocks then []
  else if 60 ≤ reportedOverallHealthScore stocks then
    [("Consider running batch update to improve data quality")]
  else [("Immediate batch update recommended"), ("Check data source connectivity")]

/-- The full recommendation list the endpoint actually returns. -/
def reportedHealthRecommendations (stocks : List StockHealthRow) : List String :=
  reportedStatusRecommendations stocks
  ++ (if reportedCompletenessRate stocks < 95 then [("data completeness low")] else [])
  ++ (if reportedFreshnessRate stocks < 80 then [("data freshness low")] else [])
  ++ (if reportedTagCoverageRate stocks < 90 then [("tag coverage low")] else [])
  ++ (if 0 < reportedAnomalousCount stocks then [("anomalous data present")] else [])

end DataHealth

namespace JsStr

/-- Remove the first occurrence of `pat` from the character list (the
semantics of JS String.replace(pat, <empty string>) with a string
pattern). -/
def removeFirstOccAux (pat : List Char) : List Char → List Char
  | [] => []
  | c :: rest =>
    if pat.isPrefixOf (c :: rest) then (c :: rest).drop pat.length
    else c :: removeFirstOccAux pat rest

/-- JS s.replace(pat, <empty string>) for a string pattern. -/
def removeFirstOcc (s pat : String) : String := ⟨removeFirstOccAux pat.data s.data⟩

/-- JS s.includes(pat): does pat occur anywhere in s. -/
def containsSub (pat : List Char) : List Char → Bool
  | [] => pat.isEmpty
  | c :: rest => pat.isPrefixOf (c :: rest) || containsSub pat rest

/-- String wrapper of `containsSub`. -/
def containsStr (s pat : String) : Bool := containsSub pat.data s.data

end JsStr

namespace Polygon

/-- One grouped-daily bar of the Polygon response: close, open, high,
low, volume (fields c, o, h, l, v of the provider payload). -/
structure Bar where
  c : ℚ
  o : ℚ
  hi : ℚ
  lo : ℚ
  v : ℚ
deriving DecidableEq

/-- Outcome of one attempted grouped-daily request: an HTTP/network
failure (response not ok, or fetch threw), or an ok response carrying its
result rows keyed by ticker (resultsCount is the list length). -/
inductive SnapResponse where
  | fail : SnapResponse
  | ok (results : List (String × Bar)) : SnapResponse
deriving DecidableEq

/-- An attempt that yields no usable data: a failed request or an ok
response with zero results. -/
def attemptBad : SnapResponse → Bool
  | .fail => true
  | .ok rs => rs.isEmpty

end Polygon

namespace ApiUpdateAllData

/-- The stock columns read by `updateDynamicTags` in
src/api/update-all-data.js. -/
structure StockRow where
  market_cap : Option ℚ
  last_price : Option ℚ
  change_percent : Option ℚ
  sector_zh : Option String
deriving DecidableEq

/-- Market-cap section of `calculateDynamicTags` (src/api/update-all-data.js):
`if (stock.market_cap)` is JS truthiness, so a present zero market cap
selects no branch at all. -/
def sizeTags (mc : Option ℚ) : List String :=
  match mc with
  | none => []
  | some v =>
    if v = 0 then []
    else if v > 200000000000 then [("超大盘股")]
    else if v > 50000000000 then [("大盘股")]
    else if v > 10000000000 then [("中盘股")]
    else if v > 2000000000 then [("小盘股")]
    else [("微盘股")]

/-- Price section (truthiness guard; the chain has no else branch, so
prices in [10, 100] get nothing). -/
def priceTags (lp : Option ℚ) : List String :=
  match lp with
  | none => []
  | some v =>
    if v = 0 then []
    else if v > 500 then [("高价股")]
    else if v > 100 then [("中价股")]
    else if v < 10 then [("低价股")]
    else []

/-- Change-percent section (truthiness guard, four buckets, no else). -/
def momentumTags (cp : Option ℚ) : List String :=
  match cp with
  | none => []
  | some v =>
    if v = 0 then []
    else if v > 5 then [("强势上涨")]
    else if v > 2 then [("温和上涨")]
    else if v < -5 then [("大幅下跌")]
    else if v < -2 then [("温和下跌")]
    else []

/-- Sector section: the sector label itself becomes a tag. -/
def sectorTags (sec : Option String) : List String :=
  match sec with
  | none => []
  | some s => if s = "" then [] else [s]

/-- Embedding of `calculateDynamicTags(stock)` from
src/api/update-all-data.js: the four sections push in source order. -/
def calculateDynamicTags (s : StockRow) : List String :=
  sizeTags s.market_cap ++ priceTags s.last_price
    ++ momentumTags s.change_percent ++ sectorTags s.sector_zh

/-- JS IEEE-754 arithmetic results that matter for division by zero:
a finite number, one of the infinities, or NaN. -/
inductive JsNum where
  | num (q : ℚ) : JsNum
  | posInf : JsNum
  | negInf : JsNum
  | nan : JsNum
deriving DecidableEq

/-- JS division a / b (only the zero-denominator cases differ from ℚ). -/
def jsDiv (a b : ℚ) : JsNum :=
  if b = 0 then (if 0 < a then .posInf else if a < 0 then .negInf else .nan)
  else .num (a / b)

/-- Multiplication by the positive constant 100 lifted to `JsNum`. -/
def jsMul100 : JsNum → JsNum
  | .num q => .num (q * 100)
  | .posInf => .posInf
  | .negInf => .negInf
  | .nan => .nan

/-- The column assignments `updateStockData` (src/api/update-all-data.js)
performs for a stock that has a Polygon bar: last_price from close,
change_percent computed unconditionally as ((c - o) / o * 100) — the
value of `.toFixed(2)` — market_cap from the Finnhub payload (null when
absent), and last_updated = NOW(). -/
structure StockUpdateRow where
  last_price : Option ℚ
  change_percent : Option JsNum
  market_cap : Option ℚ
  last_updated : Bool
deriving DecidableEq

/-- Per-ticker update built by `updateStockData` for a stock with bar b. -/
def updateStockRow (b : Polygon.Bar) (marketCapitalization : Option ℚ) : StockUpdateRow :=
  { last_price := some b.c,
    change_percent := some (jsMul100 (jsDiv (b.c - b.o) b.o)),
    market_cap := marketCapitalization,
    last_updated := true }

/-- Embedding of `getPolygonSnapshot` from src/api/update-all-data.js:
try up to 7 calendar dates (day offsets i, i+1, ...), return the results
of the first ok response with a nonempty result list, and null after the
seventh failure. -/
def getPolygonSnapshotGo (resp : Nat → Polygon.SnapResponse) :
    Nat → Nat → Option (List (String × Polygon.Bar))
  | _, 0 => none
  | i, fuel + 1 =>
    match resp i with
    | .ok rs => if 0 < rs.length then some rs else getPolygonSnapshotGo resp (i + 1) fuel
    | .fail => getPolygonSnapshotGo resp (i + 1) fuel

/-- The 7-attempt loop started at the current date. -/
def getPolygonSnapshot (resp : Nat → Polygon.SnapResponse) :
    Option (List (String × Polygon.Bar)) :=
  getPolygonSnapshotGo resp 0 7

/-- Observable outcome of the handler of src/api/update-all-data.js:
`updateStockData` returns early (no per-stock writes) when the snapshot
is null or empty — without throwing — and the handler then always calls
`updateDynamicTags` and commits, answering 200. -/
structure UnifiedRunOutcome where
  status : Nat
  stockDataUpdated : Bool
  dynamicTagsRecalculated : Bool
deriving DecidableEq

/-- Control flow of the handler around the two steps. -/
def runUpdateAllData (resp : Nat → Polygon.SnapResponse) : UnifiedRunOutcome :=
  let snap := getPolygonSnapshot resp
  let stockUpdated :=
    match snap with
    | none => false
    | some rs => 0 < rs.length
  { status := 200, stockDataUpdated := stockUpdated, dynamicTagsRecalculated := true }

end ApiUpdateAllData

namespace UpdateTagsApi

/-- The stock columns read by the tags-update job of /api/update-tags.js
(the second file of src/unnamed/part_005). -/
structure StockData where
  market_cap : Option ℚ
  change_percent : Option ℚ
  last_price : Option ℚ
  volume : Option ℚ
  sector_zh : Option String
deriving DecidableEq

/-- Market-cap section of `calculateDynamicTags` (/api/update-tags.js):
same strict thresholds 200B / 50B / 10B / 2B behind a truthiness guard. -/
def sizeTags (mc : Option ℚ) : List String :=
  match mc with
  | none => []
  | some v =>
    if v = 0 then []
    else if v > 200000000000 then [("超大盘股")]
    else if v > 50000000000 then [("大盘股")]
    else if v > 10000000000 then [("中盘股")]
    else if v > 2000000000 then [("小盘股")]
    else [("微盘股")]

/-- Change-percent section: guarded by presence (`!== null` and
`!== undefined`), so zero passes the guard; nine exhaustive buckets. -/
def momentumTags (cp : Option ℚ) : List String :=
  match cp with
  | none => []
  | some v =>
    if v > 10 then [("涨停板")]
    else if v > 5 then [("强势上涨")]
    else if v > 2 then [("温和上涨")]
    else if v > 0 then [("微涨")]
    else if v < -10 then [("跌停板")]
    else if v < -5 then [("大幅下跌")]
    else if v < -2 then [("温和下跌")]
    else if v < 0 then [("微跌")]
    else [("平盘")]

/-- Price section: truthiness guard, exhaustive four buckets. -/
def priceTags (lp : Option ℚ) : List String :=
  match lp with
  | none => []
  | some v =>
    if v = 0 then []
    else if v > 1000 then [("高价股")]
    else if v > 100 then [("中价股")]
    else if v > 10 then [("低价股")]
    else [("超低价股")]

/-- Volume section: truthiness guard; volumes in [1e6, 1e7] get nothing. -/
def volumeTags (vol : Option ℚ) : List String :=
  match vol with
  | none => []
  | some v =>
    if v = 0 then []
    else if v > 100000000 then [("超高成交量")]
    else if v > 50000000 then [("高成交量")]
    else if v > 10000000 then [("中等成交量")]
    else if v < 1000000 then [("低成交量")]
    else []

/-- Sector section: substring tests on sector_zh pushing special tags. -/
def sectorSpecialTags (sec : Option String) : List String :=
  match sec with
  | none => []
  | some s =>
    if s = "" then []
    else
      (if JsStr.containsStr s ("科技") || JsStr.containsStr s ("信息技术")
        then [("科技股")] else [])
      ++ (if JsStr.containsStr s ("医疗") || JsStr.containsStr s ("生物")
          then [("医药股")] else [])
      ++ (if JsStr.containsStr s ("金融") || JsStr.containsStr s ("银行")
          then [("金融股")] else [])
      ++ (if JsStr.containsStr s ("能源") || JsStr.containsStr s ("石油")
          then [("能源股")] else [])
      ++ (if JsStr.containsStr s ("消费") || JsStr.containsStr s ("零售")
          then [("消费股")] else [])

/-- Embedding of `calculateDynamicTags(client, ticker, stockData)` of
/api/update-tags.js: the five sections push in source order. -/
def calculateDynamicTags (s : StockData) : List String :=
  sizeTags s.market_cap ++ momentumTags s.change_percent ++ priceTags s.last_price
    ++ volumeTags s.volume ++ sectorSpecialTags s.sector_zh

/-- The nine momentum bucket names, in source order. -/
def momentumNames : List String :=
  [("涨停板"), ("强势上涨"), ("温和上涨"), ("微涨"), ("平盘"),
   ("微跌"), ("温和下跌"), ("大幅下跌"), ("跌停板")]

/-- The sublist of momentum-family tags inside a computed tag list. -/
def momentumOf (l : List String) : List String :=
  l.filter (fun t => decide (t ∈ momentumNames))

end UpdateTagsApi

namespace ApiUpdateData

/-- The sparse market-data column assignments built by the handler of
src/api/update-data.js for one ticker: a `none` field is a column the
update statement does not mention, so the stored value stays untouched. -/
structure MarketUpdates where
  last_price : Option ℚ
  open_price : Option ℚ
  high_price : Option ℚ
  low_price : Option ℚ
  volume : Option ℚ
  change_percent : Option ℚ
  change_amount : Option ℚ
deriving DecidableEq

/-- Embedding of the market-data half of the per-ticker update loop: when
a snapshot bar exists, price/open/high/low/volume are always assigned,
and change_percent / change_amount only under the guard `o > 0`. -/
def buildMarketUpdates (bar : Option Polygon.Bar) : MarketUpdates :=
  match bar with
  | none => { last_price := none, open_price := none, high_price := none,
              low_price := none, volume := none, change_percent := none,
              change_amount := none }
  | some b =>
    { last_price := some b.c,
      open_price := some b.o,
      high_price := some b.hi,
      low_price := some b.lo,
      volume := some b.v,
      change_percent := if b.o > 0 then some ((b.c - b.o) / b.o * 100) else none,
      change_amount := if b.o > 0 then some (b.c - b.o) else none }

end ApiUpdateData

namespace BatchUpdate

/-- The Finnhub metric fields consumed by `batchUpdateFinancialData` of
/api/batch-update.js (src/unnamed/part_007); a `none` field is one the
provider response omitted. -/
structure Metric where
  marketCapitalization : Option ℚ
  roeTTM : Option ℚ
  peTTM : Option ℚ
  week52High : Option ℚ
  week52Low : Option ℚ
  dividendYieldAnnual : Option ℚ
deriving DecidableEq

/-- The financial columns of one stocks row. -/
structure StockFinancials where
  market_cap : Option ℚ
  roe_ttm : Option ℚ
  pe_ttm : Option ℚ
  week_52_high : Option ℚ
  week_52_low : Option ℚ
  dividend_yield : Option ℚ
deriving DecidableEq

/-- JS truthiness of an optional numeric value. -/
def truthy : Option ℚ → Bool
  | none => false
  | some v => !(v == 0)

/-- Embedding of the per-ticker body of `batchUpdateFinancialData`: each
column is added to the UPDATE only when the metric field is truthy
(present and nonzero); otherwise the stored value is left untouched. -/
def applyMetric (prev : StockFinancials) (m : Metric) : StockFinancials :=
  { market_cap := if truthy m.marketCapitalization then m.marketCapitalization else prev.market_cap,
    roe_ttm := if truthy m.roeTTM then m.roeTTM else prev.roe_ttm,
    pe_ttm := if truthy m.peTTM then m.peTTM else prev.pe_ttm,
    week_52_high := if truthy m.week52High then m.week52High else prev.week_52_high,
    week_52_low := if truthy m.week52Low then m.week52Low else prev.week_52_low,
    dividend_yield := if truthy m.dividendYieldAnnual then m.dividendYieldAnnual else prev.dividend_yield }

/-- A ticker whose response carried no `metric` object (or no response at
all) is never in the financialData map and its row is not touched. -/
def applyMetricOpt (prev : StockFinancials) (m : Option Metric) : StockFinancials :=
  match m with
  | none => prev
  | some mm => applyMetric prev mm

end BatchUpdate

namespace PagesUpdateData

/-- Embedding of `getPolygonSnapshot` from pages/api/update-data.js: up
to 7 attempts over successive earlier dates (day offset i); an ok
response with resultsCount > 0 returns its ticker-to-bar map; anything
else steps the date back; exhaustion throws. -/
def getPolygonSnapshotGo (resp : Nat → Polygon.SnapResponse) :
    Nat → Nat → Except String (List (String × Polygon.Bar))
  | _, 0 => .error ("Could not fetch any snapshot data from Polygon after 7 attempts.")
  | i, fuel + 1 =>
    match resp i with
    | .ok rs => if 0 < rs.length then .ok rs else getPolygonSnapshotGo resp (i + 1) fuel
    | .fail => getPolygonSnapshotGo resp (i + 1) fuel

/-- The 7-attempt loop started at the current date. -/
def getPolygonSnapshot (resp : Nat → Polygon.SnapResponse) :
    Except String (List (String × Polygon.Bar)) :=
  getPolygonSnapshotGo resp 0 7

/-- Observable outcome of the handler of pages/api/update-data.js: HTTP
status, whether COMMIT was reached, and the final store state. -/
structure RunOutcome (σ : Type) where
  status : Nat
  committed : Bool
  db : σ

/-- Control flow of the handler: unauthorized requests answer 401; a
snapshot-fetch exception is caught, the transaction rolled back, and 500
returned with the store unchanged (no reconciliation, no tagging);
otherwise the per-ticker reconciliation and the tag recomputation run
(abstracted as `reconcileAndTag`) and the transaction commits with 200. -/
def handler (σ : Type) (authorized : Bool) (resp : Nat → Polygon.SnapResponse)
    (db : σ) (reconcileAndTag : σ → List (String × Polygon.Bar) → σ) : RunOutcome σ :=
  if authorized then
    match getPolygonSnapshot resp with
    | .error _ => { status := 500, committed := false, db := db }
    | .ok snap => { status := 200, committed := true, db := reconcileAndTag db snap }
  else { status := 401, committed := false, db := db }

end PagesUpdateData

namespace UpdateStats

/-- One row of the `update_stats` table
(supabase/migrations/20241220000003_create_update_stats.sql).
`age_days` models `created_at` as days before NOW();
`deleted_records_meta` is the metadata key jsonb_build_object writes. -/
structure UpdateStatRow where
  update_type : String
  total_stocks : Int
  success_count : Int
  error_count : Int
  duration_seconds : Int
  triggered_by : String
  trigger_reason : String
  age_days : Nat
  deleted_records_meta : Option Int
deriving DecidableEq

/-- The CHECK constraint of the table:
update_type IN ('standard', 'batch', 'tags-only'). -/
def updateTypeAllowed (t : String) : Bool :=
  t == "standard" || t == "batch" || t == "tags-only"

/-- INSERT INTO update_stats, enforcing the CHECK constraint: a row whose
update_type fails the constraint raises and nothing is inserted. -/
def insertUpdateStat (tbl : List UpdateStatRow) (r : UpdateStatRow) :
    Except String (List UpdateStatRow) :=
  if updateTypeAllowed r.update_type then .ok (tbl ++ [r])
  else .error ("update_stats_update_type_check")

/-- Embedding of `cleanup_old_update_stats()`: delete the rows older than
90 days, then insert one row with update_type maintenance recording the
deleted count; an unhandled exception aborts the function, rolling back
its whole effect (modelled by the caller `runCleanup`). -/
def cleanup_old_update_stats (tbl : List UpdateStatRow) :
    Except String (List UpdateStatRow × Int) :=
  let remaining := tbl.filter (fun r => decide (r.age_days ≤ 90))
  let deleted : Int := (tbl.length : Int) - (remaining.length : Int)
  match insertUpdateStat remaining
      { update_type := ("maintenance"), total_stocks := 0, success_count := deleted,
        error_count := 0, duration_seconds := 0, triggered_by := ("system"),
        trigger_reason := ("Automated cleanup of old update statistics"),
        age_days := 0, deleted_records_meta := some deleted } with
  | .ok t => .ok (t, deleted)
  | .error e => .error e

/-- Invoking the function as a statement: on an exception the statement
aborts and the table is unchanged. -/
def runCleanup (tbl : List UpdateStatRow) : List UpdateStatRow :=
  match cleanup_old_update_stats tbl with
  | .ok (t, _) => t
  | .error _ => tbl

/-- A table with one 91-day-old standard row and one recent batch row:
the cleanup's DELETE clause matches the first row. -/
def agedTable : List UpdateStatRow :=
  [{ update_type := ("standard"), total_stocks := 500, success_count := 495,
     error_count := 5, duration_seconds := 120, triggered_by := ("cron"),
     trigger_reason := ("Daily scheduled update"), age_days := 91,
     deleted_records_meta := none },
   { update_type := ("batch"), total_stocks := 500, success_count := 480,
     error_count := 20, duration_seconds := 300, triggered_by := ("health-check"),
     trigger_reason := ("Health score below threshold"), age_days := 2,
     deleted_records_meta := none }]

end UpdateStats

namespace Auth

/-- expectedKey = process.env.CRON_SECRET with JS || fallback: an unset
or empty variable falls back to the literal test-secret. -/
def jsOrDefault (v : Option String) (d : String) : String :=
  match v with
  | none => d
  | some s => if s = "" then d else s

/-- Embedding of `verifyApiKey` from lib/auth.js (src/unnamed/part_008):
a missing or empty header fails; otherwise the header with the *first
occurrence* of the text Bearer-plus-space removed (JS String.replace) is
compared to the expected key. -/
def verifyApiKey (cronSecret : Option String) (authHeader : Option String) : Bool :=
  match authHeader with
  | none => false
  | some h =>
    if h = "" then false
    else JsStr.removeFirstOcc h ("Bearer ") == jsOrDefault cronSecret ("test-secret")

/-- Modelled from the claim's words, for comparison with the code: strip
one literal Bearer-plus-space prefix when present, and compare to
CRON_SECRET, or to test-secret when CRON_SECRET is unset. -/
def claimAuthorized (cronSecret : Option String) (authHeader : Option String) : Bool :=
  match authHeader with
  | none => false
  | some h =>
    let pat := ("Bearer ")
    let token : String :=
      if pat.data.isPrefixOf h.data then ⟨h.data.drop pat.data.length⟩ else h
    let expected : String :=
      match cronSecret with
      | some s => s
      | none => ("test-secret")
    token == expected

end Auth

namespace UnifiedApi

/-- Embedding of `shouldUseMockData` from pages/api/update-all-data.js:
true when NEON_DATABASE_URL is unset or empty (JS falsiness) or contains
one of the placeholder markers. -/
def shouldUseMockData (dbUrl : Option String) : Bool :=
  match dbUrl with
  | none => true
  | some u =>
    (u == "") || JsStr.containsStr u ("your-database-url")
      || JsStr.containsStr u ("placeholder")

/-- Observable outcome of the unified handler: HTTP status, the success
flag and mode field of the JSON body, the final store state, and whether
any external API was queried. -/
structure HandlerResult (σ : Type) where
  status : Nat
  success : Option Bool
  mode : Option String
  db : σ
  externalFetches : Bool

/-- Control flow of the handler of pages/api/update-all-data.js around
the real pipeline: the authorization check, then the mock-mode check
(also entered when the pool connect fails), and only past those the
fetch-reconcile-tag pipeline, abstracted as `pipeline` returning the new
store state and the success flag. -/
def handler (σ : Type) (authHeader : Option String) (cronSecret : String)
    (dbUrl : Option String) (connectOk : Bool) (db : σ)
    (pipeline : σ → σ × Bool) : HandlerResult σ :=
  if authHeader == some (("Bearer ") ++ cronSecret) then
    if shouldUseMockData dbUrl then
      { status := 200, success := some true, mode := some ("mock"),
        db := db, externalFetches := false }
    else if connectOk then
      let r := pipeline db
      { status := if r.2 then 200 else 500, success := some r.2, mode := none,
        db := r.1, externalFetches := true }
    else
      { status := 200, success := some true, mode := some ("mock"),
        db := db, externalFetches := false }
  else
    { status := 401, success := none, mode := none, db := db, externalFetches := false }

end UnifiedApi

/-! ### Theorems -/

section FullUpdateProofs

open FullUpdate

theorem filter_ne_of_map_pair (S : List String) (i : Nat) :
    (S.map (fun s => (s, i))).filter (fun p => !(p.2 == i)) = [] := by
  induction S with
  | nil => rfl
  | cons a t ih => simp [ih]

theorem map_fst_of_map_pair (S : List String) (i : Nat) :
    ((S.map (fun s => (s, i))).map (fun p => p.1)) = S := by
  induction S with
  | nil => rfl
  | cons a t ih => simp [ih]

theorem filter_eq_of_map_pair (S : List String) (i : Nat) :
    (S.map (fun s => (s, i))).filter (fun p => p.2 == i) = S.map (fun s => (s, i)) := by
  induction S with
  | nil => rfl
  | cons a t ih => simp [ih]

theorem filter_eq_of_filter_ne (l : List (String × Nat)) (i : Nat) :
    (l.filter (fun p => !(p.2 == i))).filter (fun p => p.2 == i) = [] := by
  induction l with
  | nil => rfl
  | cons a t ih =>
    by_cases hai : a.2 = i
    · simp [hai, ih]
    · have hb : (a.2 == i) = false := by simpa using hai
      simp [List.filter_cons, hb, ih]

theorem filter_ne_of_filter_ne (l : List (String × Nat)) (i : Nat) :
    (l.filter (fun p => !(p.2 == i))).filter (fun p => !(p.2 == i))
      = l.filter (fun p => !(p.2 == i)) := by
  induction l with
  | nil => rfl
  | cons a t ih =>
    by_cases hai : a.2 = i
    · simp [hai, ih]
    · have hb : (a.2 == i) = false := by simpa using hai
      simp [List.filter_cons, hb, ih]

theorem find?_append_of_none {α : Type} (p : α → Bool) (l l2 : List α)
    (h : l.find? p = none) : (l ++ l2).find? p = l2.find? p := by
  induction l with
  | nil => rfl
  | cons a t ih =>
    rcases hpa : p a with _ | _
    · simp only [List.cons_append, List.find?, hpa]
      exact ih (by simpa [List.find?, hpa] using h)
    · simp [List.find?, hpa] at h

/-- C1 (amended): for every nonempty ticker list S, after
`applyTag T fam S` the association list for T is exactly S (stale
associations removed), it is duplicate-free whenever S is, and a second
identical application leaves the store unchanged (idempotence).  The
original claim fails for S = []; see the counterexample. -/
theorem applyTag_full_replacement (T fam : String) (S : List String) (db : TagDB)
    (h : S ≠ []) :
    tagAssociations (applyTag T fam S db) T = S ∧
    (S.Nodup → (tagAssociations (applyTag T fam S db) T).Nodup) ∧
    applyTag T fam S (applyTag T fam S db) = applyTag T fam S db := by
  have hlen : ¬ S.length = 0 := by simpa using h
  rcases hf : findTag db T with _ | t
  case none =>
    have hf' : db.tags.find? (fun r => r.name == T) = none := hf
    have happ : applyTag T fam S db =
        { tags := db.tags ++ [⟨db.nextId, T, fam⟩],
          stockTags := db.stockTags.filter (fun p => !(p.2 == db.nextId))
            ++ S.map (fun s => (s, db.nextId)),
          nextId := db.nextId + 1 } := by
      simp only [applyTag, if_neg hlen, hf]
    have hfind : findTag (applyTag T fam S db) T = some ⟨db.nextId, T, fam⟩ := by
      rw [happ]
      show (db.tags ++ [({ id := db.nextId, name := T, ttype := fam } : TagRow)]).find? (fun r => r.name == T) = _
      rw [find?_append_of_none _ _ _ hf']
      simp [List.find?]
    have hassoc : tagAssociations (applyTag T fam S db) T = S := by
      rw [tagAssociations, hfind, happ]
      show ((db.stockTags.filter (fun p => !(p.2 == db.nextId))
          ++ S.map (fun s => (s, db.nextId))).filter
            (fun p => p.2 == db.nextId)).map (fun p => p.1) = S
      rw [List.filter_append, filter_eq_of_filter_ne, filter_eq_of_map_pair]
      rw [List.nil_append]
      exact map_fst_of_map_pair S _
    refine ⟨hassoc, ?_, ?_⟩
    · intro hnd
      rw [hassoc]
      exact hnd
    · rw [happ] at hfind
      rw [happ]
      rw [applyTag, if_neg hlen, hfind]
      show ({ tags := db.tags ++ [⟨db.nextId, T, fam⟩],
              stockTags := ((db.stockTags.filter (fun p => !(p.2 == db.nextId))
                ++ S.map (fun s => (s, db.nextId))).filter (fun p => !(p.2 == db.nextId)))
                ++ S.map (fun s => (s, db.nextId)),
              nextId := db.nextId + 1 } : TagDB) = _
      rw [List.filter_append, filter_ne_of_filter_ne, filter_ne_of_map_pair]
      simp
  case some =>
    have happ : applyTag T fam S db =
        { tags := db.tags,
          stockTags := db.stockTags.filter (fun p => !(p.2 == t.id))
            ++ S.map (fun s => (s, t.id)),
          nextId := db.nextId } := by
      simp only [applyTag, if_neg hlen, hf]
    have hfind : findTag (applyTag T fam S db) T = some t := by
      rw [happ]
      show db.tags.find? (fun r => r.name == T) = some t
      exact hf
    have hassoc : tagAssociations (applyTag T fam S db) T = S := by
      rw [tagAssociations, hfind, happ]
      show ((db.stockTags.filter (fun p => !(p.2 == t.id))
          ++ S.map (fun s => (s, t.id))).filter
            (fun p => p.2 == t.id)).map (fun p => p.1) = S
      rw [List.filter_append, filter_eq_of_filter_ne, filter_eq_of_map_pair]
      rw [List.nil_append]
      exact map_fst_of_map_pair S _
    refine ⟨hassoc, ?_, ?_⟩
    · intro hnd
      rw [hassoc]
      exact hnd
    · rw [happ] at hfind
      rw [happ]
      rw [applyTag, if_neg hlen, hfind]
      show ({ tags := db.tags,
              stockTags := ((db.stockTags.filter (fun p => !(p.2 == t.id))
                ++ S.map (fun s => (s, t.id))).filter (fun p => !(p.2 == t.id)))
                ++ S.map (fun s => (s, t.id)),
              nextId := db.nextId } : TagDB) = _
      rw [List.filter_append, filter_ne_of_filter_ne, filter_ne_of_map_pair]
      simp

/-- C1 witness: a concrete application replacing a stale association. -/
theorem applyTag_full_replacement_witness :
    (["MSFT", "NVDA"] : List String) ≠ [] ∧
    tagAssociations (applyTag ("X") ("dynamic") ["MSFT", "NVDA"] staleDb) ("X") = ["MSFT", "NVDA"] :=
  ⟨by decide, (applyTag_full_replacement ("X") ("dynamic") ["MSFT", "NVDA"] staleDb (by decide)).1⟩

/-- C1 counterexample: `applyTag` returns immediately on an empty ticker
list, so a stale association survives and the final association set is
not the (empty) input set — the claim as stated is false for S = []. -/
theorem applyTag_empty_counterexample :
    applyTag ("X") ("dynamic") [] staleDb = staleDb ∧
    tagAssociations (applyTag ("X") ("dynamic") [] staleDb) ("X") = ["AAPL"] := by
  constructor
  · rfl
  · rfl

end FullUpdateProofs

section DataHealthProofs

open DataHealth

theorem rate_bounds_div (k n : ℕ) (hk : k ≤ n) (hn : ¬ n = 0) :
    0 ≤ ((k : ℚ) / (n : ℚ)) * 100 ∧ ((k : ℚ) / (n : ℚ)) * 100 ≤ 100 := by
  have hn' : (0 : ℚ) < (n : ℚ) := by exact_mod_cast Nat.pos_of_ne_zero hn
  have h1 : (k : ℚ) / (n : ℚ) ≤ 1 := by
    rw [div_le_one hn']
    exact_mod_cast hk
  have h0 : 0 ≤ (k : ℚ) / (n : ℚ) := by positivity
  constructor
  · linarith
  · linarith

theorem rate_bounds_sub (k n : ℕ) (hk : k ≤ n) (hn : ¬ n = 0) :
    0 ≤ (((n : ℚ) - (k : ℚ)) / (n : ℚ)) * 100 ∧ (((n : ℚ) - (k : ℚ)) / (n : ℚ)) * 100 ≤ 100 := by
  have hn' : (0 : ℚ) < (n : ℚ) := by exact_mod_cast Nat.pos_of_ne_zero hn
  have hk' : (k : ℚ) ≤ (n : ℚ) := by exact_mod_cast hk
  have h1 : ((n : ℚ) - (k : ℚ)) / (n : ℚ) ≤ 1 := by
    rw [div_le_one hn']
    linarith
  have h0 : 0 ≤ ((n : ℚ) - (k : ℚ)) / (n : ℚ) := by
    apply div_nonneg
    · linarith
    · linarith
  constructor
  · linarith
  · linarith

theorem completenessRate_bounds (stocks : List StockHealthRow) :
    0 ≤ completenessRate stocks ∧ completenessRate stocks ≤ 100 := by
  rw [completenessRate]
  by_cases h : stocks.length = 0
  · simp [h]
  · rw [if_neg h]
    exact rate_bounds_sub _ _ (List.countP_le_length _) h

theorem freshnessRate_bounds (stocks : List StockHealthRow) :
    0 ≤ freshnessRate stocks ∧ freshnessRate stocks ≤ 100 := by
  rw [freshnessRate]
  by_cases h : stocks.length = 0
  · simp [h]
  · rw [if_neg h]
    exact rate_bounds_div _ _ (List.countP_le_length _) h

theorem tagCoverageRate_bounds (stocks : List StockHealthRow) :
    0 ≤ tagCoverageRate stocks ∧ tagCoverageRate stocks ≤ 100 := by
  rw [tagCoverageRate]
  by_cases h : stocks.length = 0
  · simp [h]
  · rw [if_neg h]
    exact rate_bounds_div _ _ (List.countP_le_length _) h

theorem dataQualityRate_bounds (stocks : List StockHealthRow) :
    0 ≤ dataQualityRate stocks ∧ dataQualityRate stocks ≤ 100 := by
  rw [dataQualityRate]
  by_cases h : stocks.length = 0
  · simp [h]
  · rw [if_neg h]
    exact rate_bounds_sub _ _ (List.countP_le_length _) h

/-- Reference lemma for the count-field computation: the weighted-sum
score over the true row counts is an integer always in [0, 100]; score
90 gives status excellent, 89 good, 60 fair with at least one
recommendation, 59 poor with at least two; and an empty stocks table
divides by nothing, yields all four rates 0, score 0 and status poor.
The endpoint as written never performs this computation — see
`health_endpoint_misbinds_count`. -/
theorem countField_score_boundaries (stocks : List DataHealth.StockHealthRow) :
    overallHealthScore stocks =
      Int.floor ((3/10 : ℚ) * completenessRate stocks + (3/10 : ℚ) * freshnessRate stocks
        + (1/4 : ℚ) * dataQualityRate stocks + (3/20 : ℚ) * tagCoverageRate stocks + 1/2)
    ∧ 0 ≤ overallHealthScore stocks
    ∧ overallHealthScore stocks ≤ 100
    ∧ (overallHealthScore stocks = 90 → healthStatus stocks = ("excellent"))
    ∧ (overallHealthScore stocks = 89 → healthStatus stocks = ("good"))
    ∧ (overallHealthScore stocks = 60 →
        healthStatus stocks = ("fair") ∧ 1 ≤ (healthRecommendations stocks).length)
    ∧ (overallHealthScore stocks = 59 →
        healthStatus stocks = ("poor") ∧ 2 ≤ (healthRecommendations stocks).length)
    ∧ (stocks = [] →
        completenessRate stocks = 0 ∧ freshnessRate stocks = 0
        ∧ dataQualityRate stocks = 0 ∧ tagCoverageRate stocks = 0
        ∧ overallHealthScore stocks = 0 ∧ healthStatus stocks = ("poor")) := by
  obtain ⟨hc0, hc1⟩ := completenessRate_bounds stocks
  obtain ⟨hf0, hf1⟩ := freshnessRate_bounds stocks
  obtain ⟨hq0, hq1⟩ := dataQualityRate_bounds stocks
  obtain ⟨ht0, ht1⟩ := tagCoverageRate_bounds stocks
  have hlow : 0 ≤ overallHealthScore stocks := by
    rw [overallHealthScore]
    rw [Int.le_floor]
    push_cast
    norm_num
    nlinarith
  have hhigh : overallHealthScore stocks ≤ 100 := by
    have : overallHealthScore stocks < 101 := by
      rw [overallHealthScore]
      rw [Int.floor_lt]
      push_cast
      norm_num
      nlinarith
    omega
  refine ⟨?_, hlow, hhigh, ?_, ?_, ?_, ?_, ?_⟩
  · rw [overallHealthScore]
    congr 1
    norm_num
    ring
  · intro h
    simp only [healthStatus, h]
    norm_num
  · intro h
    simp only [healthStatus, h]
    norm_num
  · intro h
    constructor
    · simp only [healthStatus, h]
      norm_num
    · simp only [healthRecommendations, statusRecommendations, h, List.length_append]
      norm_num
      omega
  · intro h
    constructor
    · simp only [healthStatus, h]
      norm_num
    · simp only [healthRecommendations, statusRecommendations, h, List.length_append]
      norm_num
      omega
  · intro h
    subst h
    have hcr : completenessRate [] = 0 := rfl
    have hfr : freshnessRate [] = 0 := rfl
    have hqr : dataQualityRate [] = 0 := rfl
    have htr : tagCoverageRate [] = 0 := rfl
    have hs : overallHealthScore [] = 0 := by
      rw [overallHealthScore, hcr, hfr, hqr, htr]
      norm_num
    have hst : healthStatus [] = ("poor") := by
      simp only [healthStatus, hs]
      norm_num
    exact ⟨hcr, hfr, hqr, htr, hs, hst⟩

/-- Concrete stock tables on which the count-field computation hits the
scores 90, 89, 60 and 59 exactly, with the statuses and recommendation
counts `countField_score_boundaries` derives for them. -/
theorem countField_score_examples :
    overallHealthScore scoreNinetyStocks = 90
    ∧ healthStatus scoreNinetyStocks = ("excellent")
    ∧ overallHealthScore scoreEightyNineStocks = 89
    ∧ healthStatus scoreEightyNineStocks = ("good")
    ∧ overallHealthScore scoreSixtyStocks = 60
    ∧ healthStatus scoreSixtyStocks = ("fair")
    ∧ 1 ≤ (healthRecommendations scoreSixtyStocks).length
    ∧ overallHealthScore scoreFiftyNineStocks = 59
    ∧ healthStatus scoreFiftyNineStocks = ("poor")
    ∧ 2 ≤ (healthRecommendations scoreFiftyNineStocks).length := by
  have h90 : overallHealthScore scoreNinetyStocks = 90 := by
    have hlen : scoreNinetyStocks.length = 10 := by decide
    have hinc : incompleteCount scoreNinetyStocks = 0 := by decide
    have hfr : freshCount scoreNinetyStocks = 10 := by decide
    have htg : taggedCount scoreNinetyStocks = 3 := by decide
    have han : anomalousCount scoreNinetyStocks = 0 := by decide
    simp only [overallHealthScore, completenessRate, freshnessRate, dataQualityRate,
      tagCoverageRate, hlen, hinc, hfr, htg, han]
    norm_num
  have h89 : overallHealthScore scoreEightyNineStocks = 89 := by
    have hlen : scoreEightyNineStocks.length = 20 := by decide
    have hinc : incompleteCount scoreEightyNineStocks = 0 := by decide
    have hfr : freshCount scoreEightyNineStocks = 20 := by decide
    have htg : taggedCount scoreEightyNineStocks = 12 := by decide
    have han : anomalousCount scoreEightyNineStocks = 4 := by decide
    simp only [overallHealthScore, completenessRate, freshnessRate, dataQualityRate,
      tagCoverageRate, hlen, hinc, hfr, htg, han]
    norm_num
  have h60 : overallHealthScore scoreSixtyStocks = 60 := by
    have hlen : scoreSixtyStocks.length = 20 := by decide
    have hinc : incompleteCount scoreSixtyStocks = 0 := by decide
    have hfr : freshCount scoreSixtyStocks = 20 := by decide
    have htg : taggedCount scoreSixtyStocks = 0 := by decide
    have han : anomalousCount scoreSixtyStocks = 20 := by decide
    simp only [overallHealthScore, completenessRate, freshnessRate, dataQualityRate,
      tagCoverageRate, hlen, hinc, hfr, htg, han]
    norm_num
  have h59 : overallHealthScore scoreFiftyNineStocks = 59 := by
    have hlen : scoreFiftyNineStocks.length = 20 := by decide
    have hinc : incompleteCount scoreFiftyNineStocks = 1 := by decide
    have hfr : freshCount scoreFiftyNineStocks = 20 := by decide
    have htg : taggedCount scoreFiftyNineStocks = 0 := by decide
    have han : anomalousCount scoreFiftyNineStocks = 20 := by decide
    simp only [overallHealthScore, completenessRate, freshnessRate, dataQualityRate,
      tagCoverageRate, hlen, hinc, hfr, htg, han]
    norm_num
  refine ⟨h90, (countField_score_boundaries scoreNinetyStocks).2.2.2.1 h90,
    h89, (countField_score_boundaries scoreEightyNineStocks).2.2.2.2.1 h89,
    h60, ((countField_score_boundaries scoreSixtyStocks).2.2.2.2.2.1 h60).1,
    ((countField_score_boundaries scoreSixtyStocks).2.2.2.2.2.1 h60).2,
    h59, ((countField_score_boundaries scoreFiftyNineStocks).2.2.2.2.2.2.1 h59).1,
    ((countField_score_boundaries scoreFiftyNineStocks).2.2.2.2.2.2.1 h59).2⟩

end DataHealthProofs

section SizeBucketProofs

open ApiUpdateAllData

/-- C3 (amended): for every stock whose market_cap is present and
nonzero, the threshold-based size computation assigns exactly one of the
five buckets, with strict > comparisons against 200B / 50B / 10B / 2B,
first match winning, so each boundary value falls into the lower bucket;
the /api/update-tags.js copy computes the same buckets.  A present but
zero market_cap is falsy in JS and receives no size tag at all; see the
counterexample. -/
theorem size_buckets (mc : ℚ) (h : mc ≠ 0) :
    (sizeTags (some mc)).length = 1
    ∧ (200000000000 < mc → sizeTags (some mc) = [("超大盘股")])
    ∧ (50000000000 < mc ∧ mc ≤ 200000000000 → sizeTags (some mc) = [("大盘股")])
    ∧ (10000000000 < mc ∧ mc ≤ 50000000000 → sizeTags (some mc) = [("中盘股")])
    ∧ (2000000000 < mc ∧ mc ≤ 10000000000 → sizeTags (some mc) = [("小盘股")])
    ∧ (mc ≤ 2000000000 → sizeTags (some mc) = [("微盘股")])
    ∧ sizeTags (some mc) = UpdateTagsApi.sizeTags (some mc) := by
  refine ⟨?_, ?_, ?_, ?_, ?_, ?_, rfl⟩
  · simp only [sizeTags]
    rw [if_neg h]
    split_ifs <;> rfl
  · intro h1
    simp only [sizeTags]
    rw [if_neg h, if_pos h1]
  · rintro ⟨h1, h2⟩
    simp only [sizeTags]
    rw [if_neg h, if_neg (by linarith), if_pos h1]
  · rintro ⟨h1, h2⟩
    simp only [sizeTags]
    rw [if_neg h, if_neg (by linarith), if_neg (by linarith), if_pos h1]
  · rintro ⟨h1, h2⟩
    simp only [sizeTags]
    rw [if_neg h, if_neg (by linarith), if_neg (by linarith), if_neg (by linarith), if_pos h1]
  · intro h1
    simp only [sizeTags]
    rw [if_neg h, if_neg (by linarith), if_neg (by linarith), if_neg (by linarith),
      if_neg (by linarith)]

/-- C3 witness: the boundary values 200B and 2B land in the lower bucket. -/
theorem size_buckets_witness :
    ((200000000000 : ℚ) ≠ 0 ∧ sizeTags (some 200000000000) = [("大盘股")])
    ∧ ((2000000000 : ℚ) ≠ 0 ∧ sizeTags (some 2000000000) = [("微盘股")]) :=
  ⟨⟨by norm_num, (size_buckets 200000000000 (by norm_num)).2.2.1 ⟨by norm_num, by norm_num⟩⟩,
   ⟨by norm_num, (size_buckets 2000000000 (by norm_num)).2.2.2.2.2.1 (by norm_num)⟩⟩

/-- C3 counterexample: a stock with market_cap present and equal to 0 is
non-null, yet the computation assigns it no size tag (indeed no tag at
all), contradicting the claim that exactly one of the five buckets is
assigned to every stock with non-null market_cap. -/
theorem size_buckets_zero_counterexample :
    (calculateDynamicTags
      { market_cap := some 0, last_price := none, change_percent := none,
        sector_zh := none }) = []
    ∧ ({ market_cap := some 0, last_price := none, change_percent := none,
         sector_zh := none } : StockRow).market_cap ≠ none := by
  constructor
  · decide
  · decide

end SizeBucketProofs

section MomentumProofs

open UpdateTagsApi

theorem momentumOf_append (a b : List String) :
    momentumOf (a ++ b) = momentumOf a ++ momentumOf b := by
  simp [momentumOf, List.filter_append]

theorem momentumOf_sizeTags (mc : Option ℚ) : momentumOf (UpdateTagsApi.sizeTags mc) = [] := by
  rcases mc with _ | v
  · rfl
  · simp only [UpdateTagsApi.sizeTags]
    split_ifs <;> rfl

theorem momentumOf_priceTags (lp : Option ℚ) : momentumOf (priceTags lp) = [] := by
  rcases lp with _ | v
  · rfl
  · simp only [priceTags]
    split_ifs <;> rfl

theorem momentumOf_volumeTags (vol : Option ℚ) : momentumOf (volumeTags vol) = [] := by
  rcases vol with _ | v
  · rfl
  · simp only [volumeTags]
    split_ifs <;> rfl

theorem momentumOf_sectorSpecialTags (sec : Option String) :
    momentumOf (sectorSpecialTags sec) = [] := by
  rcases sec with _ | s
  · rfl
  · simp only [sectorSpecialTags]
    split_ifs <;> rfl

theorem momentumOf_momentumTags (cp : Option ℚ) :
    momentumOf (momentumTags cp) = momentumTags cp := by
  rcases cp with _ | v
  · rfl
  · simp only [momentumTags]
    split_ifs <;> rfl

/-- C8: for every stock whose change_percent is present, the momentum
tags inside the computed tag list are exactly the momentum section, that
section is a single bucket out of the nine, and the bucket is determined
by the boundaries ±10, ±5, ±2 and 0 as stated; in particular a stock
with change_percent = 0 receives 平盘. -/
theorem momentum_nine_buckets (s : StockData) (cp : ℚ)
    (h : s.change_percent = some cp) :
    momentumOf (calculateDynamicTags s) = momentumTags (some cp)
    ∧ (momentumOf (calculateDynamicTags s)).length = 1
    ∧ (10 < cp → momentumOf (calculateDynamicTags s) = [("涨停板")])
    ∧ (5 < cp ∧ cp ≤ 10 → momentumOf (calculateDynamicTags s) = [("强势上涨")])
    ∧ (2 < cp ∧ cp ≤ 5 → momentumOf (calculateDynamicTags s) = [("温和上涨")])
    ∧ (0 < cp ∧ cp ≤ 2 → momentumOf (calculateDynamicTags s) = [("微涨")])
    ∧ (cp = 0 → momentumOf (calculateDynamicTags s) = [("平盘")])
    ∧ (-2 ≤ cp ∧ cp < 0 → momentumOf (calculateDynamicTags s) = [("微跌")])
    ∧ (-5 ≤ cp ∧ cp < -2 → momentumOf (calculateDynamicTags s) = [("温和下跌")])
    ∧ (-10 ≤ cp ∧ cp < -5 → momentumOf (calculateDynamicTags s) = [("大幅下跌")])
    ∧ (cp < -10 → momentumOf (calculateDynamicTags s) = [("跌停板")]) := by
  have hlift : momentumOf (calculateDynamicTags s) = momentumTags (some cp) := by
    simp only [calculateDynamicTags, momentumOf_append, momentumOf_sizeTags,
      momentumOf_priceTags, momentumOf_volumeTags, momentumOf_sectorSpecialTags,
      momentumOf_momentumTags, h]
    simp
  rw [hlift]
  refine ⟨rfl, ?_, ?_, ?_, ?_, ?_, ?_, ?_, ?_, ?_, ?_⟩
  · simp only [momentumTags]
    split_ifs <;> rfl
  · intro h1
    simp only [momentumTags]
    rw [if_pos h1]
  · rintro ⟨h1, h2⟩
    simp only [momentumTags]
    rw [if_neg (by linarith), if_pos h1]
  · rintro ⟨h1, h2⟩
    simp only [momentumTags]
    rw [if_neg (by linarith), if_neg (by linarith), if_pos h1]
  · rintro ⟨h1, h2⟩
    simp only [momentumTags]
    rw [if_neg (by linarith), if_neg (by linarith), if_neg (by linarith), if_pos h1]
  · rintro rfl
    simp only [momentumTags]
    norm_num
  · rintro ⟨h1, h2⟩
    simp only [momentumTags]
    rw [if_neg (by linarith), if_neg (by linarith), if_neg (by linarith),
      if_neg (by linarith), if_neg (by linarith), if_neg (by linarith),
      if_neg (by linarith), if_pos h2]
  · rintro ⟨h1, h2⟩
    simp only [momentumTags]
    rw [if_neg (by linarith), if_neg (by linarith), if_neg (by linarith),
      if_neg (by linarith), if_neg (by linarith), if_neg (by linarith), if_pos h2]
  · rintro ⟨h1, h2⟩
    simp only [momentumTags]
    rw [if_neg (by linarith), if_neg (by linarith), if_neg (by linarith),
      if_neg (by linarith), if_neg (by linarith), if_pos h2]
  · intro h1
    simp only [momentumTags]
    rw [if_neg (by linarith), if_neg (by linarith), if_neg (by linarith),
      if_neg (by linarith), if_pos h1]

/-- C8 witness: a stock with change_percent exactly 0 receives 平盘. -/
theorem momentum_nine_buckets_witness :
    ({ market_cap := none, change_percent := some 0, last_price := none,
       volume := none, sector_zh := none } : StockData).change_percent = some 0
    ∧ momentumOf (calculateDynamicTags
        { market_cap := none, change_percent := some 0, last_price := none,
          volume := none, sector_zh := none }) = [("平盘")] :=
  ⟨rfl, (momentum_nine_buckets _ 0 rfl).2.2.2.2.2.2.1 rfl⟩

end MomentumProofs

section ReconcilerProofs

open ApiUpdateData

/-- C4 (amended): in the guarded reconciler of src/api/update-data.js, a
snapshot bar with open = 0 yields an update that assigns no
change_percent and no change_amount, while the price column is still
assigned the bar's close; the computation is total, so no exception is
raised.  The `updateStockData` variant of src/api/update-all-data.js
violates the claim — see the counterexample. -/
theorem open_zero_skips_change_percent (b : Polygon.Bar) (h : b.o = 0) :
    (buildMarketUpdates (some b)).change_percent = none
    ∧ (buildMarketUpdates (some b)).change_amount = none
    ∧ (buildMarketUpdates (some b)).last_price = some b.c := by
  have hno : ¬ b.o > 0 := by rw [h]; exact lt_irrefl 0
  refine ⟨?_, ?_, rfl⟩
  · simp only [buildMarketUpdates]
    rw [if_neg hno]
  · simp only [buildMarketUpdates]
    rw [if_neg hno]

/-- C4 witness: a concrete bar with open = 0. -/
theorem open_zero_skips_change_percent_witness :
    ({ c := 5, o := 0, hi := 6, lo := 4, v := 1000 } : Polygon.Bar).o = 0
    ∧ (buildMarketUpdates (some { c := 5, o := 0, hi := 6, lo := 4, v := 1000 })).change_percent = none
    ∧ (buildMarketUpdates (some { c := 5, o := 0, hi := 6, lo := 4, v := 1000 })).last_price = some 5 :=
  ⟨rfl,
   (open_zero_skips_change_percent { c := 5, o := 0, hi := 6, lo := 4, v := 1000 } rfl).1,
   (open_zero_skips_change_percent { c := 5, o := 0, hi := 6, lo := 4, v := 1000 } rfl).2.2⟩

/-- C4 counterexample: `updateStockData` of src/api/update-all-data.js
computes ((c - o) / o * 100) with no guard, so a bar with open = 0 and
close = 5 produces a change-percent assignment (the JS value Infinity) —
the claim that reconciliation never writes a change-percent for open = 0
is false on this code path. -/
theorem updateStockData_open_zero_counterexample :
    (ApiUpdateAllData.updateStockRow { c := 5, o := 0, hi := 6, lo := 4, v := 1000 } none).change_percent
      = some ApiUpdateAllData.JsNum.posInf
    ∧ (ApiUpdateAllData.updateStockRow { c := 5, o := 0, hi := 6, lo := 4, v := 1000 } none).change_percent
      ≠ none := by
  have h : (ApiUpdateAllData.updateStockRow { c := 5, o := 0, hi := 6, lo := 4, v := 1000 } none).change_percent
      = some ApiUpdateAllData.JsNum.posInf := by
    simp only [ApiUpdateAllData.updateStockRow, ApiUpdateAllData.jsDiv, ApiUpdateAllData.jsMul100]
    norm_num
  exact ⟨h, by rw [h]; exact Option.some_ne_none _⟩

end ReconcilerProofs

section FundamentalsProofs

open BatchUpdate

theorem truthy_eq_true_iff (x : Option ℚ) :
    truthy x = true ↔ ∃ v, x = some v ∧ v ≠ 0 := by
  rcases x with _ | v
  · simp [truthy]
  · simp [truthy]

/-- C5: a fundamentals merge writes each of market-cap / ROE / P-E /
52-week-high / 52-week-low / dividend-yield only when the provider
returned that field non-null and nonzero; a ticker absent from the
response map keeps its whole row, and in particular a response omitting
roe leaves the stored ROE value unchanged. -/
theorem fundamentals_never_erase (prev : StockFinancials) (mm : Metric) :
    applyMetricOpt prev none = prev
    ∧ (truthy mm.marketCapitalization = false →
        (applyMetric prev mm).market_cap = prev.market_cap)
    ∧ (truthy mm.roeTTM = false → (applyMetric prev mm).roe_ttm = prev.roe_ttm)
    ∧ (truthy mm.peTTM = false → (applyMetric prev mm).pe_ttm = prev.pe_ttm)
    ∧ (truthy mm.week52High = false →
        (applyMetric prev mm).week_52_high = prev.week_52_high)
    ∧ (truthy mm.week52Low = false →
        (applyMetric prev mm).week_52_low = prev.week_52_low)
    ∧ (truthy mm.dividendYieldAnnual = false →
        (applyMetric prev mm).dividend_yield = prev.dividend_yield)
    ∧ (mm.roeTTM = none → (applyMetric prev mm).roe_ttm = prev.roe_ttm)
    ∧ ((applyMetric prev mm).roe_ttm ≠ prev.roe_ttm →
        ∃ v, mm.roeTTM = some v ∧ v ≠ 0 ∧ (applyMetric prev mm).roe_ttm = some v) := by
  refine ⟨rfl, ?_, ?_, ?_, ?_, ?_, ?_, ?_, ?_⟩
  · intro h
    simp [applyMetric, h]
  · intro h
    simp [applyMetric, h]
  · intro h
    simp [applyMetric, h]
  · intro h
    simp [applyMetric, h]
  · intro h
    simp [applyMetric, h]
  · intro h
    simp [applyMetric, h]
  · intro h
    simp [applyMetric, truthy, h]
  · intro h
    rcases ht : truthy mm.roeTTM with _ | _
    · exfalso
      apply h
      simp [applyMetric, ht]
    · obtain ⟨v, hv, hv0⟩ := (truthy_eq_true_iff mm.roeTTM).mp ht
      refine ⟨v, hv, hv0, ?_⟩
      simp only [applyMetric]
      rw [if_pos ht]
      exact hv

/-- C5 witness: a response that omits roe leaves a previously stored ROE
of 5 untouched, and a ticker missing from the map keeps its row. -/
theorem fundamentals_never_erase_witness :
    applyMetricOpt
      { market_cap := some 1000000, roe_ttm := some 5, pe_ttm := some 12,
        week_52_high := some 200, week_52_low := some 90, dividend_yield := some 2 }
      none
      = { market_cap := some 1000000, roe_ttm := some 5, pe_ttm := some 12,
          week_52_high := some 200, week_52_low := some 90, dividend_yield := some 2 }
    ∧ (applyMetric
        { market_cap := some 1000000, roe_ttm := some 5, pe_ttm := some 12,
          week_52_high := some 200, week_52_low := some 90, dividend_yield := some 2 }
        { marketCapitalization := some 2000000, roeTTM := none, peTTM := none,
          week52High := none, week52Low := none, dividendYieldAnnual := none }).roe_ttm
      = some 5 :=
  ⟨(fundamentals_never_erase
      { market_cap := some 1000000, roe_ttm := some 5, pe_ttm := some 12,
        week_52_high := some 200, week_52_low := some 90, dividend_yield := some 2 }
      { marketCapitalization := some 2000000, roeTTM := none, peTTM := none,
        week52High := none, week52Low := none, dividendYieldAnnual := none }).1,
   (fundamentals_never_erase
      { market_cap := some 1000000, roe_ttm := some 5, pe_ttm := some 12,
        week_52_high := some 200, week_52_low := some 90, dividend_yield := some 2 }
      { marketCapitalization := some 2000000, roeTTM := none, peTTM := none,
        week52High := none, week52Low := none, dividendYieldAnnual := none }).2.2.2.2.2.2.2.1
      rfl⟩

end FundamentalsProofs

section SnapshotProofs

open PagesUpdateData Polygon

theorem getPolygonSnapshotGo_all_bad (resp : Nat → SnapResponse) :
    ∀ fuel i, (∀ k, k < fuel → attemptBad (resp (i + k)) = true) →
      getPolygonSnapshotGo resp i fuel
        = .error ("Could not fetch any snapshot data from Polygon after 7 attempts.") := by
  intro fuel
  induction fuel with
  | zero => intro i _; rfl
  | succ f ih =>
    intro i h
    have h0 : attemptBad (resp i) = true := by simpa using h 0 (Nat.succ_pos f)
    have hrest : ∀ k, k < f → attemptBad (resp (i + 1 + k)) = true := by
      intro k hk
      have := h (k + 1) (by omega)
      rwa [show i + (k + 1) = i + 1 + k by omega] at this
    rcases hres : resp i with _ | rs
    · simp only [getPolygonSnapshotGo, hres]
      exact ih (i + 1) hrest
    · rw [hres] at h0
      have hempty : rs = [] := by simpa [attemptBad] using h0
      simp only [getPolygonSnapshotGo, hres]
      rw [if_neg (by simp [hempty])]
      exact ih (i + 1) hrest

theorem getPolygonSnapshotGo_first_good (resp : Nat → SnapResponse) :
    ∀ j fuel i rs, j < fuel →
      (∀ k, k < j → attemptBad (resp (i + k)) = true) →
      resp (i + j) = .ok rs → rs ≠ [] →
      getPolygonSnapshotGo resp i fuel = .ok rs := by
  intro j
  induction j with
  | zero =>
    intro fuel i rs hfuel _ hok hne
    rcases fuel with _ | f
    · omega
    · rw [Nat.add_zero] at hok
      simp only [getPolygonSnapshotGo, hok]
      rw [if_pos (List.length_pos.mpr hne)]
  | succ j ih =>
    intro fuel i rs hfuel hbad hok hne
    rcases fuel with _ | f
    · omega
    · have h0 : attemptBad (resp i) = true := by simpa using hbad 0 (Nat.succ_pos j)
      have hrest : ∀ k, k < j → attemptBad (resp (i + 1 + k)) = true := by
        intro k hk
        have := hbad (k + 1) (by omega)
        rwa [show i + (k + 1) = i + 1 + k by omega] at this
      have hok' : resp (i + 1 + j) = .ok rs := by
        rwa [show i + 1 + j = i + (j + 1) by omega]
      rcases hres : resp i with _ | rs0
      · simp only [getPolygonSnapshotGo, hres]
        exact ih f (i + 1) rs (by omega) hrest hok' hne
      · rw [hres] at h0
        have hempty : rs0 = [] := by simpa [attemptBad] using h0
        simp only [getPolygonSnapshotGo, hres]
        rw [if_neg (by simp [hempty])]
        exact ih f (i + 1) rs (by omega) hrest hok' hne

/-- C6 (amended): the snapshot fetcher tries at most 7 calendar dates,
stepping back one day on every response that is not ok or has zero
results, and returns the first non-empty ticker-to-bar map; in
pages/api/update-data.js exhaustion of all 7 attempts throws, so the run
answers 500 with the store untouched — no reconciliation and no tagging
occur.  In src/api/update-all-data.js exhaustion is *not* fatal; see the
counterexample. -/
theorem snapshot_seven_attempts (resp : Nat → SnapResponse) :
    ((∀ i, i < 7 → attemptBad (resp i) = true) →
      getPolygonSnapshot resp
        = .error ("Could not fetch any snapshot data from Polygon after 7 attempts.")
      ∧ ∀ (σ : Type) (db : σ) (reconcileAndTag : σ → List (String × Bar) → σ),
          handler σ true resp db reconcileAndTag
            = { status := 500, committed := false, db := db })
    ∧ (∀ j rs, j < 7 → (∀ k, k < j → attemptBad (resp k) = true) →
        resp j = .ok rs → rs ≠ [] → getPolygonSnapshot resp = .ok rs) := by
  constructor
  · intro h
    have herr : getPolygonSnapshot resp
        = .error ("Could not fetch any snapshot data from Polygon after 7 attempts.") := by
      apply getPolygonSnapshotGo_all_bad resp 7 0
      intro k hk
      simpa using h k hk
    refine ⟨herr, ?_⟩
    intro σ db reconcileAndTag
    simp only [handler, herr]
    rw [if_pos trivial]
  · intro j rs hj hbad hok hne
    apply getPolygonSnapshotGo_first_good resp j 7 0 rs hj
    · intro k hk
      simpa using hbad k hk
    · simpa using hok
    · exact hne

end SnapshotProofs

section SnapshotWitnessProofs

open PagesUpdateData Polygon

/-- C6 witness: with every attempt failing the fetch errors and the run
answers 500 untouched; with the first attempt non-empty its map is
returned. -/
theorem snapshot_seven_attempts_witness :
    getPolygonSnapshot (fun _ => SnapResponse.fail)
      = .error ("Could not fetch any snapshot data from Polygon after 7 attempts.")
    ∧ handler Nat true (fun _ => SnapResponse.fail) 0 (fun d _ => d + 1)
      = { status := 500, committed := false, db := 0 }
    ∧ getPolygonSnapshot
        (fun _ => SnapResponse.ok [(("AAPL"), { c := 5, o := 4, hi := 6, lo := 3, v := 100 })])
      = .ok [(("AAPL"), { c := 5, o := 4, hi := 6, lo := 3, v := 100 })] := by
  have h1 := (snapshot_seven_attempts (fun _ => SnapResponse.fail)).1 (fun i _ => rfl)
  refine ⟨h1.1, h1.2 Nat 0 (fun d _ => d + 1), ?_⟩
  exact (snapshot_seven_attempts _).2 0 _ (by omega)
    (fun k hk => absurd hk (Nat.not_lt_zero k)) rfl (List.cons_ne_nil _ _)

/-- C6 counterexample: in src/api/update-all-data.js the same 7-attempt
exhaustion returns null instead of throwing; `updateStockData` then skips
the per-stock writes and returns normally, and the handler still runs
`updateDynamicTags` and answers 200 — the failure is not fatal to the
run, contradicting the claim. -/
theorem updateAllData_snapshot_failure_counterexample :
    ApiUpdateAllData.getPolygonSnapshot (fun _ => SnapResponse.fail) = none
    ∧ ApiUpdateAllData.runUpdateAllData (fun _ => SnapResponse.fail)
      = { status := 200, stockDataUpdated := false, dynamicTagsRecalculated := true } :=
  ⟨rfl, rfl⟩

end SnapshotWitnessProofs

section UpdateStatsProofs

/-- C7: the retention cleanup is broken by the table's CHECK constraint.
The claim (and the function's own comment) say the cleanup deletes the
rows older than 90 days and appends one maintenance row recording the
deleted count; but update_type maintenance is outside the CHECK list
(standard, batch, tags-only), so on a table holding a 91-day-old row the
INSERT raises, the function aborts, and nothing is deleted or logged. -/
theorem cleanup_maintenance_check_violation :
    UpdateStats.updateTypeAllowed ("maintenance") = false
    ∧ (∃ r ∈ UpdateStats.agedTable, 90 < r.age_days)
    ∧ UpdateStats.cleanup_old_update_stats UpdateStats.agedTable
      = .error ("update_stats_update_type_check")
    ∧ UpdateStats.runCleanup UpdateStats.agedTable = UpdateStats.agedTable := by
  refine ⟨rfl, by decide, rfl, rfl⟩

end UpdateStatsProofs

section AuthProofs

theorem isPrefixOf_append_self (p l : List Char) : p.isPrefixOf (p ++ l) = true := by
  induction p with
  | nil => cases l <;> rfl
  | cons a q ih => simp [List.isPrefixOf, ih]

theorem removeFirstOccAux_of_not_contains (pat : List Char) :
    ∀ l, JsStr.containsSub pat l = false → JsStr.removeFirstOccAux pat l = l := by
  intro l
  induction l with
  | nil =>
    intro _
    rfl
  | cons c rest ih =>
    intro h
    rw [JsStr.containsSub, Bool.or_eq_false_iff] at h
    rw [JsStr.removeFirstOccAux, if_neg (by simp [h.1]), ih h.2]

theorem removeFirstOccAux_prepend (pat l : List Char) (hpat : pat ≠ []) :
    JsStr.removeFirstOccAux pat (pat ++ l) = l := by
  rcases pat with _ | ⟨c, cs⟩
  · exact absurd rfl hpat
  · rw [List.cons_append, JsStr.removeFirstOccAux,
      if_pos (by rw [← List.cons_append]; exact isPrefixOf_append_self _ _)]
    rw [← List.cons_append]
    exact List.drop_left _ _

/-- C9 (amended): verifyApiKey accepts exactly the non-empty headers
whose text, with the *first occurrence* of Bearer-plus-space removed
(anywhere, not only as a prefix), equals CRON_SECRET when that variable
is non-empty and the literal test-secret when it is unset *or empty*.
In particular a header that is the raw secret with no prefix is accepted
whenever the secret does not itself contain the pattern, a header that is
the secret behind one Bearer prefix is accepted, and with CRON_SECRET
unset both test-secret and Bearer test-secret are accepted; a missing
header is rejected. -/
theorem verifyApiKey_characterization (cronSecret : Option String) (s : String)
    (hs : s ≠ "") (hno : JsStr.containsSub ("Bearer ").data s.data = false) :
    Auth.verifyApiKey (some s) (some s) = true
    ∧ Auth.verifyApiKey (some s) (some (("Bearer ") ++ s)) = true
    ∧ Auth.verifyApiKey none (some ("Bearer test-secret")) = true
    ∧ Auth.verifyApiKey none (some ("test-secret")) = true
    ∧ Auth.verifyApiKey (some ("")) (some ("test-secret")) = true
    ∧ Auth.verifyApiKey cronSecret none = false := by
  have hrm : JsStr.removeFirstOcc s ("Bearer ") = s := by
    show (⟨JsStr.removeFirstOccAux ("Bearer ").data s.data⟩ : String) = s
    rw [removeFirstOccAux_of_not_contains _ _ hno]
  have hexp : Auth.jsOrDefault (some s) ("test-secret") = s := by
    simp only [Auth.jsOrDefault]
    rw [if_neg hs]
  have hne : (("Bearer ") ++ s) ≠ "" := by
    intro heq
    have hd : (("Bearer ") ++ s).data = ("" : String).data := congrArg String.data heq
    rw [show (("Bearer ") ++ s).data = ("Bearer ").data ++ s.data from rfl] at hd
    simp at hd
  have hrm2 : JsStr.removeFirstOcc (("Bearer ") ++ s) ("Bearer ") = s := by
    show (⟨JsStr.removeFirstOccAux ("Bearer ").data (("Bearer ") ++ s).data⟩ : String) = s
    rw [show (("Bearer ") ++ s).data = ("Bearer ").data ++ s.data from rfl]
    rw [removeFirstOccAux_prepend _ _ (by decide)]
  refine ⟨?_, ?_, by decide, by decide, by decide, rfl⟩
  · simp only [Auth.verifyApiKey]
    rw [if_neg hs, hrm, hexp]
    simp
  · simp only [Auth.verifyApiKey]
    rw [if_neg hne, hrm2, hexp]
    simp

/-- C9 witness: a concrete secret exercising the characterization. -/
theorem verifyApiKey_characterization_witness :
    (("s3") : String) ≠ ""
    ∧ JsStr.containsSub ("Bearer ").data ("s3").data = false
    ∧ Auth.verifyApiKey (some ("s3")) (some ("s3")) = true
    ∧ Auth.verifyApiKey (some ("s3")) (some ("Bearer s3")) = true
    ∧ Auth.verifyApiKey none (some ("Bearer test-secret")) = true := by
  refine ⟨by decide, by decide, ?_, ?_, ?_⟩
  · exact (verifyApiKey_characterization (some ("s3")) ("s3") (by decide) (by decide)).1
  · have h := (verifyApiKey_characterization (some ("s3")) ("s3") (by decide) (by decide)).2.1
    rwa [show (("Bearer ") ++ ("s3")) = ("Bearer s3") from rfl] at h
  · exact (verifyApiKey_characterization (some ("s3")) ("s3") (by decide) (by decide)).2.2.1

/-- C9 counterexample: JS String.replace removes the first occurrence of
the pattern anywhere in the header, not a prefix: with CRON_SECRET = ab,
the header aBearer-space-b is accepted by the code, while the claim's
strip-one-prefix rule rejects it. -/
theorem verifyApiKey_counterexample :
    Auth.verifyApiKey (some ("ab")) (some ("aBearer b")) = true
    ∧ Auth.claimAuthorized (some ("ab")) (some ("aBearer b")) = false := by
  constructor
  · decide
  · decide

end AuthProofs

section MockModeProofs

/-- C10: an authorized call to the unified update endpoint with the
database connection string absent or containing a placeholder marker
answers HTTP 200 with success true and mode mock, leaves the store
untouched, and performs no external fetch, whatever the rest of the
pipeline would do. -/
theorem mock_mode_no_writes (σ : Type) (cronSecret : String) (dbUrl : Option String)
    (connectOk : Bool) (db : σ) (pipeline : σ → σ × Bool)
    (h : dbUrl = none ∨ ∃ u, dbUrl = some u ∧
        (JsStr.containsStr u ("your-database-url") = true
          ∨ JsStr.containsStr u ("placeholder") = true)) :
    UnifiedApi.handler σ (some (("Bearer ") ++ cronSecret)) cronSecret dbUrl connectOk db pipeline
      = { status := 200, success := some true, mode := some ("mock"), db := db,
          externalFetches := false } := by
  have hmock : UnifiedApi.shouldUseMockData dbUrl = true := by
    rcases h with rfl | ⟨u, rfl, hu | hu⟩
    · rfl
    · simp [UnifiedApi.shouldUseMockData, hu]
    · simp [UnifiedApi.shouldUseMockData, hu]
  simp [UnifiedApi.handler, hmock]

/-- C10 witness: a placeholder connection string on a concrete store. -/
theorem mock_mode_no_writes_witness :
    UnifiedApi.handler Nat (some (("Bearer ") ++ ("s"))) ("s") (some ("placeholder")) true 0
      (fun d => (d + 1, true))
      = { status := 200, success := some true, mode := some ("mock"), db := 0,
          externalFetches := false } :=
  mock_mode_no_writes Nat ("s") (some ("placeholder")) true 0 (fun d => (d + 1, true))
    (Or.inr ⟨("placeholder"), rfl, Or.inr (by decide)⟩)

end MockModeProofs

section DataHealthMisbindProofs

open DataHealth

/-- C2: the health endpoint as written never computes the claimed score.
Its handler binds the data field of every head count query, which is
null for such queries (the row count arrives in the count field), and
coalesces it to 0: for every table state all five counts it uses are 0,
every reported rate is 0, the reported score is round(0 + 1/2 - 1/2)
= 0 and the reported status is poor with five recommendations — the
claimed boundary scores 90, 89, 60 and 59 are unreachable.  On the
failing input (ten complete, fresh, normal stocks, three of them
tagged) the count-field computation the claim describes yields 90 and
excellent, while the endpoint reports 0 and poor. -/
theorem health_endpoint_misbinds_count (stocks : List DataHealth.StockHealthRow) :
    reportedTotalCount stocks = 0
    ∧ reportedCompletenessRate stocks = 0
    ∧ reportedFreshnessRate stocks = 0
    ∧ reportedDataQualityRate stocks = 0
    ∧ reportedTagCoverageRate stocks = 0
    ∧ reportedOverallHealthScore stocks = 0
    ∧ reportedHealthStatus stocks = ("poor")
    ∧ (reportedHealthRecommendations stocks).length = 5
    ∧ overallHealthScore scoreNinetyStocks = 90
    ∧ healthStatus scoreNinetyStocks = ("excellent")
    ∧ reportedOverallHealthScore scoreNinetyStocks = 0
    ∧ reportedHealthStatus scoreNinetyStocks = ("poor") := by
  have hscoreAll : ∀ l : List StockHealthRow, reportedOverallHealthScore l = 0 := by
    intro l
    have hc : reportedCompletenessRate l = 0 := rfl
    have hf : reportedFreshnessRate l = 0 := rfl
    have hq : reportedDataQualityRate l = 0 := rfl
    have ht : reportedTagCoverageRate l = 0 := rfl
    rw [reportedOverallHealthScore, hc, hf, hq, ht]
    norm_num
  have hstatusAll : ∀ l : List StockHealthRow, reportedHealthStatus l = ("poor") := by
    intro l
    simp only [reportedHealthStatus, hscoreAll l]
    norm_num
  have hrecs : (reportedHealthRecommendations stocks).length = 5 := by
    have han : reportedAnomalousCount stocks = 0 := rfl
    simp only [reportedHealthRecommendations, reportedStatusRecommendations,
      hscoreAll stocks, han,
      show reportedCompletenessRate stocks = 0 from rfl,
      show reportedFreshnessRate stocks = 0 from rfl,
      show reportedTagCoverageRate stocks = 0 from rfl]
    norm_num
  exact ⟨rfl, rfl, rfl, rfl, rfl, hscoreAll stocks, hstatusAll stocks, hrecs,
    countField_score_examples.1, countField_score_examples.2.1,
    hscoreAll scoreNinetyStocks, hstatusAll scoreNinetyStocks⟩

end DataHealthMisbindProofs
